import Mathlib

/-!
Verification development for the interactive poster-composition engine of the
poster_generator repository (static/js/canvas-manager.js). Coordinates are
embedded as rationals; the few places where JavaScript division by zero can
surface are embedded with an explicit JavaScript-number type carrying
infinities and NaN. Stateful code (the CanvasManager class) is embedded as
explicit state passing on an EngineState record; fabric.js object identity is
modelled by numeric ids allocated from a counter, and the browser text
measurement (ctx.measureText) is an input of the model.
-/

namespace PosterGen

/-- Axis-aligned rectangle in canvas-display coordinates, mirroring the
left/top/width/height properties of fabric.js rectangles. -/
structure Rect where
  left : ℚ
  top : ℚ
  width : ℚ
  height : ℚ
deriving DecidableEq, Repr

/-- Area of a rectangle, width times height. -/
def Rect.area (r : Rect) : ℚ := r.width * r.height

/-- frameDisplayInfo as stored by setFrame in canvas-manager.js: the source
frame as fitted (aspect-preserving) into the editing canvas. -/
structure FrameDisplayInfo where
  displayWidth : ℚ
  displayHeight : ℚ
  displayLeft : ℚ
  displayTop : ℚ
  originalWidth : ℚ
  originalHeight : ℚ
  scale : ℚ
deriving DecidableEq, Repr

/-- The frame-fit computation of setFrame (canvas-manager.js lines 124-161):
fit the frame inside the canvas preserving aspect ratio and center it. -/
def computeFrameDisplayInfo (canvasWidth canvasHeight imgWidth imgHeight : ℚ) :
    FrameDisplayInfo :=
  let frameAspect := imgWidth / imgHeight
  let canvasAspect := canvasWidth / canvasHeight
  let dims :=
    if frameAspect > canvasAspect then (canvasWidth, canvasWidth / frameAspect)
    else (canvasHeight * frameAspect, canvasHeight)
  { displayWidth := dims.1
    displayHeight := dims.2
    displayLeft := (canvasWidth - dims.1) / 2
    displayTop := (canvasHeight - dims.2) / 2
    originalWidth := imgWidth
    originalHeight := imgHeight
    scale := dims.1 / imgWidth }

/-- Constants from the CanvasManager constructor. -/
def imageModeWidth : ℚ := 800

def imageModeHeight : ℚ := 500

def posterModeWidth : ℚ := 400

def posterModeHeight : ℚ := 600

def baseOverlayHeight : ℚ := 400

def baseOverlayWidth : ℚ := baseOverlayHeight * (2 / 3)

/-- _constrainOverlay (canvas-manager.js lines 317-345): clamp the overlay
position into the displayed frame bounds, one axis at a time, each clamp
applied only when the corresponding bound is violated. -/
def constrainOverlay (frame : FrameDisplayInfo) (overlay : Rect) : Rect :=
  let newLeft0 := overlay.left
  let newLeft1 := if newLeft0 < frame.displayLeft then frame.displayLeft else newLeft0
  let newLeft2 :=
    if newLeft1 + overlay.width > frame.displayLeft + frame.displayWidth then
      frame.displayLeft + frame.displayWidth - overlay.width
    else newLeft1
  let newTop0 := overlay.top
  let newTop1 := if newTop0 < frame.displayTop then frame.displayTop else newTop0
  let newTop2 :=
    if newTop1 + overlay.height > frame.displayTop + frame.displayHeight then
      frame.displayTop + frame.displayHeight - overlay.height
    else newTop1
  { overlay with left := newLeft2, top := newTop2 }

/-- The zoom clamp of setZoom (line 373):
Math.max(0.5, Math.min(1.5, zoomLevel / 100)). -/
def clampOverlayZoom (zoomLevel : ℚ) : ℚ := max (1 / 2) (min (3 / 2) (zoomLevel / 100))

/-- The overlay geometry update of setZoom (lines 375-394): new dimensions from
the clamped zoom, re-centered on the previous center, then constrained. -/
def setZoomOverlayRect (frame : FrameDisplayInfo) (overlay : Rect) (zoomLevel : ℚ) : Rect :=
  let overlayZoom := clampOverlayZoom zoomLevel
  let oldCenterX := overlay.left + overlay.width / 2
  let oldCenterY := overlay.top + overlay.height / 2
  let newHeight := baseOverlayHeight * overlayZoom
  let newWidth := newHeight * (2 / 3)
  let newLeft := oldCenterX - newWidth / 2
  let newTop := oldCenterY - newHeight / 2
  constrainOverlay frame
    { left := newLeft, top := newTop, width := newWidth, height := newHeight }

/-- The four dimming-mask rectangles, in the order they are kept in
darkMaskRects: top, bottom, left, right. -/
structure DarkMask where
  topRect : Rect
  bottomRect : Rect
  leftRect : Rect
  rightRect : Rect
deriving DecidableEq, Repr

/-- _createDarkMask geometry (lines 229-270): the four rectangles as first
constructed (no flooring at zero here). -/
def createDarkMask (canvasWidth canvasHeight : ℚ) (overlay : Rect) : DarkMask :=
  { topRect := { left := 0, top := 0, width := canvasWidth, height := overlay.top }
    bottomRect :=
      { left := 0
        top := overlay.top + overlay.height
        width := canvasWidth
        height := canvasHeight - (overlay.top + overlay.height) }
    leftRect :=
      { left := 0, top := overlay.top, width := overlay.left, height := overlay.height }
    rightRect :=
      { left := overlay.left + overlay.width
        top := overlay.top
        width := canvasWidth - (overlay.left + overlay.width)
        height := overlay.height } }

/-- _updateDarkMask geometry (lines 284-315): updates applied in place to the
existing four rectangles; only the listed properties are set, with widths and
heights floored at zero. -/
def updateDarkMask (masks : DarkMask) (canvasWidth canvasHeight : ℚ) (overlay : Rect) :
    DarkMask :=
  { topRect := { masks.topRect with height := max 0 overlay.top }
    bottomRect :=
      { masks.bottomRect with
          top := overlay.top + overlay.height
          height := max 0 (canvasHeight - (overlay.top + overlay.height)) }
    leftRect :=
      { masks.leftRect with
          top := overlay.top
          width := max 0 overlay.left
          height := overlay.height }
    rightRect :=
      { masks.rightRect with
          left := overlay.left + overlay.width
          top := overlay.top
          width := max 0 (canvasWidth - (overlay.left + overlay.width))
          height := overlay.height } }

/-- The mask geometry exactly as written in the specification text (section
4.2 of spec.md), used to compare the code against the specified formulas. -/
def specDimmingMask (canvasWidth canvasHeight : ℚ) (overlay : Rect) : DarkMask :=
  { topRect := { left := 0, top := 0, width := canvasWidth, height := overlay.top }
    bottomRect :=
      { left := 0
        top := overlay.top + overlay.height
        width := canvasWidth
        height := canvasHeight - (overlay.top + overlay.height) }
    leftRect :=
      { left := 0, top := overlay.top, width := overlay.left, height := overlay.height }
    rightRect :=
      { left := overlay.left + overlay.width
        top := overlay.top
        width := canvasWidth - (overlay.left + overlay.width)
        height := overlay.height } }

/-- JavaScript number results as they arise in the division paths of the
coordinate code: a finite rational, one of the two infinities, or NaN. -/
inductive JNum where
  | fin : ℚ → JNum
  | posInf : JNum
  | negInf : JNum
  | nan : JNum
deriving DecidableEq, Repr

/-- JavaScript division. Dividing a nonzero finite number by zero yields a
signed infinity, 0/0 yields NaN (negative zero is not modelled). -/
def jdiv : JNum → JNum → JNum
  | JNum.nan, _ => JNum.nan
  | _, JNum.nan => JNum.nan
  | JNum.fin a, JNum.fin b =>
      if b = 0 then
        if 0 < a then JNum.posInf else if a < 0 then JNum.negInf else JNum.nan
      else JNum.fin (a / b)
  | JNum.fin _, JNum.posInf => JNum.fin 0
  | JNum.fin _, JNum.negInf => JNum.fin 0
  | JNum.posInf, JNum.fin b => if 0 ≤ b then JNum.posInf else JNum.negInf
  | JNum.negInf, JNum.fin b => if 0 ≤ b then JNum.negInf else JNum.posInf
  | JNum.posInf, JNum.posInf => JNum.nan
  | JNum.posInf, JNum.negInf => JNum.nan
  | JNum.negInf, JNum.posInf => JNum.nan
  | JNum.negInf, JNum.negInf => JNum.nan

/-- JavaScript Math.min: NaN wins, otherwise the usual order with infinities. -/
def jmin : JNum → JNum → JNum
  | JNum.nan, _ => JNum.nan
  | _, JNum.nan => JNum.nan
  | JNum.negInf, _ => JNum.negInf
  | _, JNum.negInf => JNum.negInf
  | JNum.posInf, b => b
  | a, JNum.posInf => a
  | JNum.fin a, JNum.fin b => JNum.fin (min a b)

/-- JavaScript Math.max: NaN wins, otherwise the usual order with infinities. -/
def jmax : JNum → JNum → JNum
  | JNum.nan, _ => JNum.nan
  | _, JNum.nan => JNum.nan
  | JNum.posInf, _ => JNum.posInf
  | _, JNum.posInf => JNum.posInf
  | JNum.negInf, b => b
  | a, JNum.negInf => a
  | JNum.fin a, JNum.fin b => JNum.fin (max a b)

/-- True exactly for a finite value inside the closed unit interval. -/
def JNum.inUnit01 : JNum → Bool
  | JNum.fin q => decide (0 ≤ q) && decide (q ≤ 1)
  | _ => false

/-- Rectangle with JavaScript-number components, the return type of the
selection-coordinate computation. -/
structure JRect where
  left : JNum
  top : JNum
  width : JNum
  height : JNum
deriving DecidableEq, Repr

/-- _getSelectionCoords (lines 802-822): when frame info and overlay are both
present, normalize the overlay rectangle by the displayed frame rectangle and
clamp each component with Math.max(0, Math.min(1, x)); otherwise return the
fallback rectangle left 0, top 0, width 1, height 1. The divisions are
JavaScript divisions, so a zero display dimension produces infinities or NaN
rather than an error. -/
def getSelectionCoords (frameDisplayInfo : Option FrameDisplayInfo)
    (selectionOverlay : Option Rect) : JRect :=
  match frameDisplayInfo, selectionOverlay with
  | some frame, some overlay =>
      let left :=
        jdiv (JNum.fin (overlay.left - frame.displayLeft)) (JNum.fin frame.displayWidth)
      let top :=
        jdiv (JNum.fin (overlay.top - frame.displayTop)) (JNum.fin frame.displayHeight)
      let width := jdiv (JNum.fin overlay.width) (JNum.fin frame.displayWidth)
      let height := jdiv (JNum.fin overlay.height) (JNum.fin frame.displayHeight)
      { left := jmax (JNum.fin 0) (jmin (JNum.fin 1) left)
        top := jmax (JNum.fin 0) (jmin (JNum.fin 1) top)
        width := jmax (JNum.fin 0) (jmin (JNum.fin 1) width)
        height := jmax (JNum.fin 0) (jmin (JNum.fin 1) height) }
  | _, _ => { left := JNum.fin 0, top := JNum.fin 0, width := JNum.fin 1, height := JNum.fin 1 }

/-- A 2D point. -/
structure Point where
  x : ℚ
  y : ℚ
deriving DecidableEq, Repr

/-- A fabric.js transform matrix [a, b, c, d, e, f]; fabric.util.transformPoint
maps (x, y) to (a x + c y + e, b x + d y + f). -/
structure TransformMatrix where
  a : ℚ
  b : ℚ
  c : ℚ
  d : ℚ
  e : ℚ
  f : ℚ
deriving DecidableEq, Repr

/-- fabric.util.transformPoint. -/
def transformPoint (p : Point) (m : TransformMatrix) : Point :=
  { x := m.a * p.x + m.c * p.y + m.e, y := m.b * p.x + m.d * p.y + m.f }

/-- fabric.util.rotatePoint: rotate p around origin by the angle whose cosine
and sine are given. -/
def rotatePointAround (p origin : Point) (cosA sinA : ℚ) : Point :=
  let dx := p.x - origin.x
  let dy := p.y - origin.y
  { x := origin.x + cosA * dx - sinA * dy, y := origin.y + sinA * dx + cosA * dy }

/-- JavaScript (x || 1) on a number: 0 is falsy and yields 1. Used for the
scaleX/scaleY accesses written obj.scaleX || 1 in the export code. -/
def jsOrOne (q : ℚ) : ℚ := if q = 0 then 1 else q

/-- A fabric.Line object as the export code sees it: the stored local segment
coordinates x1 y1 x2 y2, the bounding-box position left/top (fabric origin
left/top, the default used by addLine), the rotation given by its cosine and
sine, the scale factors, and the stroke. Default fabric strokeLineCap butt is
assumed, as in the app. -/
structure LineObj where
  x1 : ℚ
  y1 : ℚ
  x2 : ℚ
  y2 : ℚ
  left : ℚ
  top : ℚ
  cosAngle : ℚ
  sinAngle : ℚ
  scaleX : ℚ
  scaleY : ℚ
  stroke : String
  strokeWidth : ℚ
deriving DecidableEq, Repr

/-- fabric.Line width: |x2 - x1|. -/
def LineObj.width (l : LineObj) : ℚ := |l.x2 - l.x1|

/-- fabric.Line height: |y2 - y1|. -/
def LineObj.height (l : LineObj) : ℚ := |l.y2 - l.y1|

/-- fabric.Line.calcLinePoints: the two endpoints relative to the object
center. -/
def calcLinePoints (l : LineObj) : Point × Point :=
  let xMult : ℚ := if l.x1 ≤ l.x2 then -1 else 1
  let yMult : ℚ := if l.y1 ≤ l.y2 then -1 else 1
  ({ x := xMult * l.width * (1 / 2), y := yMult * l.height * (1 / 2) },
   { x := xMult * l.width * (-(1 / 2)), y := yMult * l.height * (-(1 / 2)) })

/-- fabric _getTransformedDimensions for a Line with strokeLineCap butt:
width/height plus strokeWidth, except that a zero-width (vertical) line does
not gain stroke in its height and a zero-height (horizontal) line does not
gain stroke in its width; then scaled. -/
def LineObj.transformedDims (l : LineObj) : ℚ × ℚ :=
  let dimX0 := l.width + l.strokeWidth
  let dimY0 := l.height + l.strokeWidth
  let dimY1 := if l.width = 0 then dimY0 - l.strokeWidth else dimY0
  let dimX1 := if l.height = 0 then dimX0 - l.strokeWidth else dimX0
  (dimX1 * l.scaleX, dimY1 * l.scaleY)

/-- fabric getCenterPoint for origin left/top: offset left/top by half the
transformed dimensions, rotated around left/top by the object angle. -/
def LineObj.centerPoint (l : LineObj) : Point :=
  let dims := l.transformedDims
  rotatePointAround { x := l.left + dims.1 / 2, y := l.top + dims.2 / 2 }
    { x := l.left, y := l.top } l.cosAngle l.sinAngle

/-- fabric calcTransformMatrix without skew or flip: translation to the object
center composed with rotation and scale. -/
def LineObj.calcTransformMatrix (l : LineObj) : TransformMatrix :=
  let center := l.centerPoint
  { a := l.cosAngle * l.scaleX
    b := l.sinAngle * l.scaleX
    c := -l.sinAngle * l.scaleY
    d := l.cosAngle * l.scaleY
    e := center.x
    f := center.y }

/-- One exported line element of the PosterExportModel. -/
structure ExportedLine where
  x1 : ℚ
  y1 : ℚ
  x2 : ℚ
  y2 : ℚ
  stroke : String
  strokeWidth : ℚ
deriving DecidableEq, Repr

/-- The line branch of exportPosterData (lines 915-936): transform the two
calcLinePoints endpoints by calcTransformMatrix, normalize them by the
reference rectangle, and export strokeWidth times (scaleX || 1). -/
def exportLine (l : LineObj)
    (referenceLeft referenceTop referenceWidth referenceHeight : ℚ) : ExportedLine :=
  let points := calcLinePoints l
  let matrix := l.calcTransformMatrix
  let point1 := transformPoint points.1 matrix
  let point2 := transformPoint points.2 matrix
  { x1 := (point1.x - referenceLeft) / referenceWidth
    y1 := (point1.y - referenceTop) / referenceHeight
    x2 := (point2.x - referenceLeft) / referenceWidth
    y2 := (point2.y - referenceTop) / referenceHeight
    stroke := l.stroke
    strokeWidth := l.strokeWidth * jsOrOne l.scaleX }

/-- Horizontal alignment values of a fabric text object. -/
inductive TextAlign where
  | left
  | center
  | right
  | justify
deriving DecidableEq, Repr

/-- A fabric text object (IText or Textbox) as the export code reads it.
bboxLeft/bboxTop/bboxHeight come from obj.getBoundingRect(); width is the
container (textbox) width before scaling; maxLineWidth is the width of the
widest rendered line as measured by the browser ctx.measureText, an input of
the model. Optional fields mirror properties the code reads with a || default. -/
structure TextObj where
  text : String
  bboxLeft : ℚ
  bboxTop : ℚ
  bboxHeight : ℚ
  width : ℚ
  fontFamily : String
  fontSize : ℚ
  fill : String
  fontWeight : Option String
  fontStyle : Option String
  underline : Bool
  textAlign : Option TextAlign
  angle : ℚ
  scaleX : ℚ
  scaleY : ℚ
  maxLineWidth : ℚ
deriving DecidableEq, Repr

/-- One exported text layer of the PosterExportModel. -/
structure ExportedTextLayer where
  content : String
  left : ℚ
  top : ℚ
  fontFamily : String
  fontSize : ℚ
  fill : String
  fontWeight : String
  fontStyle : String
  underline : Bool
  textAlign : TextAlign
  angle : ℚ
  scaleX : ℚ
  scaleY : ℚ
  width : ℚ
  height : ℚ
deriving DecidableEq, Repr

/-- The text branch of exportPosterData (lines 860-914): shift the bounding
box left according to the alignment and the delta between the scaled container
width and the measured widest line, then normalize by the reference rectangle;
the exported width is the measured width, not the container width. -/
def exportTextLayer (o : TextObj)
    (referenceLeft referenceTop referenceWidth referenceHeight : ℚ) : ExportedTextLayer :=
  let textAlign := o.textAlign.getD TextAlign.center
  let textboxWidth := o.width * jsOrOne o.scaleX
  let textLeft :=
    if textAlign = TextAlign.center then
      o.bboxLeft + (textboxWidth - o.maxLineWidth) / 2
    else if textAlign = TextAlign.right then
      o.bboxLeft + textboxWidth - o.maxLineWidth
    else o.bboxLeft
  { content := o.text
    left := (textLeft - referenceLeft) / referenceWidth
    top := (o.bboxTop - referenceTop) / referenceHeight
    fontFamily := o.fontFamily
    fontSize := o.fontSize
    fill := o.fill
    fontWeight := o.fontWeight.getD "normal"
    fontStyle := o.fontStyle.getD "normal"
    underline := o.underline
    textAlign := textAlign
    angle := o.angle
    scaleX := jsOrOne o.scaleX
    scaleY := jsOrOne o.scaleY
    width := o.maxLineWidth / referenceWidth
    height := o.bboxHeight / referenceHeight }

/-- The two workflow phases of the state machine. -/
inductive WorkflowPhase where
  | background
  | elements
deriving DecidableEq, Repr

/-- The background mode selector. -/
inductive BackgroundMode where
  | image
  | color
  | gradient
deriving DecidableEq, Repr

/-- The fabric object types relevant to the manager: the frame or background
image, text objects (i-text or textbox), lines, and plain rectangles (used for
the overlay and the mask). -/
inductive ObjType where
  | image
  | itext
  | textbox
  | line
  | rect
deriving DecidableEq, Repr

/-- A canvas object as tracked by the manager. JavaScript object identity is
modelled by the id, allocated from the nextId counter of the state; isOverlay
and isMask mirror the marker flags set on fabric objects. -/
structure SceneObject where
  id : ℕ
  type : ObjType
  isOverlay : Bool
  isMask : Bool
  rect : Rect
deriving DecidableEq, Repr

/-- The canvas background: a solid fill color or a linear gradient with its
coordinate endpoints and two color stops. -/
inductive CanvasBackground where
  | solid (color : String)
  | linearGradient (x1 y1 x2 y2 : ℚ) (color0 color1 : String)
deriving DecidableEq, Repr

/-- The captured background raster of _captureSelectionAsImage, abstracted to
the crop rectangle it samples (in original frame pixels, lines 504-507) and
the blur applied; the pixel data itself is outside the model. -/
structure CapturedImage where
  cropX : ℚ
  cropY : ℚ
  cropW : ℚ
  cropH : ℚ
  blur : ℚ
deriving DecidableEq, Repr

/-- lockedBackgroundData as stored by confirmBackground (lines 424-439). -/
structure LockedBackgroundData where
  mode : BackgroundMode
  selectionCoords : JRect
  blur : ℚ
  backgroundColor : String
  gradientColors : String × String
  gradientDirection : String
  videoBase : Option String
  videoPath : Option String
  timestamp : ℚ
  capturedImageUrl : Option CapturedImage
deriving DecidableEq, Repr

/-- The state of a CanvasManager instance. sourceFrame stands for the frame
raster the media provider returns for the current video and timestamp (none
when the fetch yields nothing), given by its pixel dimensions; z-order inside
objects is not tracked beyond insertion order. -/
structure EngineState where
  canvasWidth : ℚ
  canvasHeight : ℚ
  workflowPhase : WorkflowPhase
  backgroundMode : BackgroundMode
  backgroundColor : String
  gradientColors : String × String
  gradientDirection : String
  blurAmount : ℚ
  videoBase : Option String
  videoPath : Option String
  currentTimestamp : ℚ
  objects : List SceneObject
  frameImage : Option SceneObject
  selectionOverlay : Option SceneObject
  darkMaskRects : List SceneObject
  frameDisplayInfo : Option FrameDisplayInfo
  lockedBackgroundData : Option LockedBackgroundData
  overlayZoom : ℚ
  activeObject : Option SceneObject
  sourceFrame : Option (ℚ × ℚ)
  canvasBackground : CanvasBackground
  nextId : ℕ
deriving DecidableEq, Repr

/-- The state right after the constructor runs (canvas in image mode, empty
scene, background phase). -/
def initialState : EngineState :=
  { canvasWidth := imageModeWidth
    canvasHeight := imageModeHeight
    workflowPhase := WorkflowPhase.background
    backgroundMode := BackgroundMode.image
    backgroundColor := "#000000"
    gradientColors := ("#000000", "#333333")
    gradientDirection := "vertical"
    blurAmount := 0
    videoBase := none
    videoPath := none
    currentTimestamp := 0
    objects := []
    frameImage := none
    selectionOverlay := none
    darkMaskRects := []
    frameDisplayInfo := none
    lockedBackgroundData := none
    overlayZoom := 1
    activeObject := none
    sourceFrame := none
    canvasBackground := CanvasBackground.solid "#1a1a2e"
    nextId := 0 }

/-- canvas.remove(x) for an optionally-present object: drop it from the object
list (identity modelled by id). -/
def removeObjOpt (objs : List SceneObject) (x : Option SceneObject) : List SceneObject :=
  match x with
  | some a => objs.filter (fun o => o.id ≠ a.id)
  | none => objs

/-- Removing every object whose id appears in the given list (used for the
mask rectangles). -/
def removeAllByIds (objs : List SceneObject) (toRemove : List SceneObject) :
    List SceneObject :=
  objs.filter (fun o => ¬ toRemove.any (fun m => m.id = o.id))

/-- _resizeCanvas (lines 681-689): no-op when the dimensions already match. -/
def resizeCanvas (st : EngineState) (width height : ℚ) : EngineState :=
  if st.canvasWidth = width ∧ st.canvasHeight = height then st
  else { st with canvasWidth := width, canvasHeight := height }

/-- _applyGradient (lines 691-717): linear gradient with direction-dependent
coordinates over the current canvas. -/
def applyGradient (st : EngineState) : EngineState :=
  let coords :=
    if st.gradientDirection = "horizontal" then ((0 : ℚ), (0 : ℚ), st.canvasWidth, (0 : ℚ))
    else if st.gradientDirection = "diagonal" then
      ((0 : ℚ), (0 : ℚ), st.canvasWidth, st.canvasHeight)
    else ((0 : ℚ), (0 : ℚ), (0 : ℚ), st.canvasHeight)
  { st with
      canvasBackground :=
        CanvasBackground.linearGradient coords.1 coords.2.1 coords.2.2.1 coords.2.2.2
          st.gradientColors.1 st.gradientColors.2 }

/-- The fresh overlay object built by _createSelectionOverlay (lines 184-215):
dimensions from the zoom, centered on the canvas, marked isOverlay, allocated
at the current nextId. -/
def overlayObjectFor (st : EngineState) : SceneObject :=
  let overlayHeight := baseOverlayHeight * st.overlayZoom
  let overlayWidth := overlayHeight * (2 / 3)
  { id := st.nextId
    type := ObjType.rect
    isOverlay := true
    isMask := false
    rect :=
      { left := (st.canvasWidth - overlayWidth) / 2
        top := (st.canvasHeight - overlayHeight) / 2
        width := overlayWidth
        height := overlayHeight } }

/-- _createSelectionOverlay (lines 178-216): remove any existing overlay, then
add a newly constructed one. -/
def createSelectionOverlay (st : EngineState) : EngineState :=
  { st with
      objects := removeObjOpt st.objects st.selectionOverlay ++ [overlayObjectFor st]
      selectionOverlay := some (overlayObjectFor st)
      nextId := st.nextId + 1 }

/-- The four fresh mask objects built by _createDarkMask for the given overlay
object, allocated at consecutive ids starting at nextId. -/
def maskObjectsFor (st : EngineState) (ov : SceneObject) : List SceneObject :=
  let m := createDarkMask st.canvasWidth st.canvasHeight ov.rect
  [ { id := st.nextId, type := ObjType.rect, isOverlay := false, isMask := true,
      rect := m.topRect },
    { id := st.nextId + 1, type := ObjType.rect, isOverlay := false, isMask := true,
      rect := m.bottomRect },
    { id := st.nextId + 2, type := ObjType.rect, isOverlay := false, isMask := true,
      rect := m.leftRect },
    { id := st.nextId + 3, type := ObjType.rect, isOverlay := false, isMask := true,
      rect := m.rightRect } ]

/-- _createDarkMask as a state operation (lines 218-282): remove the existing
mask rectangles, and when an overlay is present add four freshly constructed
ones (z-reordering is not tracked). -/
def createDarkMaskObjects (st : EngineState) : EngineState :=
  let st0 := { st with objects := removeAllByIds st.objects st.darkMaskRects,
                       darkMaskRects := [] }
  match st0.selectionOverlay with
  | none => st0
  | some ov =>
      let rects := maskObjectsFor st0 ov
      { st0 with
          objects := st0.objects ++ rects
          darkMaskRects := rects
          nextId := st0.nextId + 4 }

/-- The fresh frame-image object added by setFrame when the fetched frame
loads, allocated at the current nextId (fabric keeps the image centered on the
canvas at its original dimensions, scaled by the display scale). -/
def frameImageObjectFor (st : EngineState) (dims : ℚ × ℚ) : SceneObject :=
  { id := st.nextId
    type := ObjType.image
    isOverlay := false
    isMask := false
    rect := { left := st.canvasWidth / 2, top := st.canvasHeight / 2,
              width := dims.1, height := dims.2 } }

/-- setFrame (lines 109-176): record the timestamp, and in image mode with a
video selected and a frame raster available, replace the frame image, refit it
into the canvas, store frameDisplayInfo, and rebuild overlay and mask. -/
def setFrame (st : EngineState) (timestamp : ℚ) : EngineState :=
  if st.videoBase.isNone ∨ st.videoPath.isNone then st
  else
    let st1 := { st with currentTimestamp := timestamp }
    if st1.backgroundMode ≠ BackgroundMode.image then st1
    else
      match st1.sourceFrame with
      | none => st1
      | some dims =>
          let st2 := { st1 with objects := removeObjOpt st1.objects st1.frameImage }
          let info := computeFrameDisplayInfo st2.canvasWidth st2.canvasHeight dims.1 dims.2
          let img := frameImageObjectFor st2 dims
          let st3 :=
            { st2 with
                frameDisplayInfo := some info
                frameImage := some img
                objects := st2.objects ++ [img]
                nextId := st2.nextId + 1 }
          createDarkMaskObjects (createSelectionOverlay st3)

/-- _updateDarkMask as a state operation (lines 284-315): when an overlay and
exactly four mask rectangles are present, update their geometry in place. -/
def updateDarkMaskState (st : EngineState) : EngineState :=
  match st.selectionOverlay with
  | none => st
  | some ov =>
      match st.darkMaskRects with
      | [t, b, l, r] =>
          let m := updateDarkMask ⟨t.rect, b.rect, l.rect, r.rect⟩
            st.canvasWidth st.canvasHeight ov.rect
          let t1 := { t with rect := m.topRect }
          let b1 := { b with rect := m.bottomRect }
          let l1 := { l with rect := m.leftRect }
          let r1 := { r with rect := m.rightRect }
          let replace := fun (o : SceneObject) =>
            if o.id = t.id then t1
            else if o.id = b.id then b1
            else if o.id = l.id then l1
            else if o.id = r.id then r1
            else o
          { st with darkMaskRects := [t1, b1, l1, r1], objects := st.objects.map replace }
      | _ => st

/-- setZoom (lines 371-398): store the clamped zoom, and when overlay and
frame info are present, resize the overlay about its previous center, apply the
containment constraint, and update the mask. -/
def setZoom (st : EngineState) (zoomLevel : ℚ) : EngineState :=
  let st1 := { st with overlayZoom := clampOverlayZoom zoomLevel }
  match st1.selectionOverlay, st1.frameDisplayInfo with
  | some ovObj, some frame =>
      let newRect := setZoomOverlayRect frame ovObj.rect zoomLevel
      let ovObj1 := { ovObj with rect := newRect }
      let st2 :=
        { st1 with
            selectionOverlay := some ovObj1
            objects := st1.objects.map (fun o => if o.id = ovObj.id then ovObj1 else o) }
      updateDarkMaskState st2
  | _, _ => st1

/-- _captureSelectionAsImage (lines 479-525): resolves to none unless frame
image, overlay and frame info are all present; otherwise captures the overlay
rectangle mapped into original-pixel space, with the current blur. -/
def captureSelectionAsImage (st : EngineState) : Option CapturedImage :=
  match st.frameImage, st.selectionOverlay, st.frameDisplayInfo with
  | some _, some ov, some frame =>
      some
        { cropX := (ov.rect.left - frame.displayLeft) / frame.displayWidth
            * frame.originalWidth
          cropY := (ov.rect.top - frame.displayTop) / frame.displayHeight
            * frame.originalHeight
          cropW := ov.rect.width / frame.displayWidth * frame.originalWidth
          cropH := ov.rect.height / frame.displayHeight * frame.originalHeight
          blur := st.blurAmount }
  | _, _, _ => none

/-- The new poster-sized background image object installed by
_setImageBackground (lines 530-551). -/
def backgroundImageObjectFor (st : EngineState) : SceneObject :=
  { id := st.nextId
    type := ObjType.image
    isOverlay := false
    isMask := false
    rect := { left := 0, top := 0, width := posterModeWidth, height := posterModeHeight } }

/-- confirmBackground (lines 420-474): no-op when already in the elements
phase; otherwise snapshot the background settings and selection coordinates,
capture the crop in image mode, tear down overlay, mask and frame, resize to
the poster canvas, install the background for the mode, and enter the elements
phase. -/
def confirmBackground (st : EngineState) : EngineState :=
  if st.workflowPhase = WorkflowPhase.elements then st
  else
    let locked0 : LockedBackgroundData :=
      { mode := st.backgroundMode
        selectionCoords :=
          getSelectionCoords st.frameDisplayInfo (st.selectionOverlay.map SceneObject.rect)
        blur := st.blurAmount
        backgroundColor := st.backgroundColor
        gradientColors := st.gradientColors
        gradientDirection := st.gradientDirection
        videoBase := st.videoBase
        videoPath := st.videoPath
        timestamp := st.currentTimestamp
        capturedImageUrl := none }
    let locked :=
      if st.backgroundMode = BackgroundMode.image ∧ st.frameImage.isSome
          ∧ st.selectionOverlay.isSome then
        { locked0 with capturedImageUrl := captureSelectionAsImage st }
      else locked0
    let st1 := { st with objects := removeObjOpt st.objects st.selectionOverlay,
                         selectionOverlay := none }
    let st2 := { st1 with objects := removeAllByIds st1.objects st1.darkMaskRects,
                          darkMaskRects := [] }
    let st3 := { st2 with objects := removeObjOpt st2.objects st2.frameImage,
                          frameImage := none, frameDisplayInfo := none }
    let st4 := resizeCanvas st3 posterModeWidth posterModeHeight
    let st5 := { st4 with lockedBackgroundData := some locked }
    let st6 :=
      if st5.backgroundMode = BackgroundMode.image ∧ locked.capturedImageUrl.isSome then
        { st5 with
            frameImage := some (backgroundImageObjectFor st5)
            objects := st5.objects ++ [backgroundImageObjectFor st5]
            nextId := st5.nextId + 1 }
      else if st5.backgroundMode = BackgroundMode.color then
        { st5 with canvasBackground := CanvasBackground.solid st5.backgroundColor }
      else if st5.backgroundMode = BackgroundMode.gradient then applyGradient st5
      else st5
    { st6 with workflowPhase := WorkflowPhase.elements }

/-- resetToBackgroundPhase (lines 557-595): no-op when already in the
background phase; otherwise delete every text and line object, remove the
background image, restore the mode-appropriate canvas (reloading the frame
with overlay and mask in image mode), clear the snapshot, and return to the
background phase. -/
def resetToBackgroundPhase (st : EngineState) : EngineState :=
  if st.workflowPhase = WorkflowPhase.background then st
  else
    let st1 :=
      { st with
          objects := st.objects.filter (fun o =>
            ¬ (o.type = ObjType.itext ∨ o.type = ObjType.textbox ∨ o.type = ObjType.line)) }
    let st2 := { st1 with objects := removeObjOpt st1.objects st1.frameImage,
                          frameImage := none }
    let st3 := { st2 with canvasBackground := CanvasBackground.solid "#1a1a2e" }
    let st4 :=
      if st3.backgroundMode = BackgroundMode.image then
        let stR := resizeCanvas st3 imageModeWidth imageModeHeight
        if stR.videoBase.isSome ∧ stR.videoPath.isSome then
          setFrame stR stR.currentTimestamp
        else stR
      else if st3.backgroundMode = BackgroundMode.color then
        let stR := resizeCanvas st3 posterModeWidth posterModeHeight
        { stR with canvasBackground := CanvasBackground.solid stR.backgroundColor }
      else if st3.backgroundMode = BackgroundMode.gradient then
        let stR := resizeCanvas st3 posterModeWidth posterModeHeight
        applyGradient stR
      else st3
    { st4 with workflowPhase := WorkflowPhase.background, lockedBackgroundData := none }

/-- deleteSelected (lines 789-795): remove the active object unless it is the
frame image, the overlay, or a mask rectangle (fabric clears the active object
when it is removed). -/
def deleteSelected (st : EngineState) : EngineState :=
  match st.activeObject with
  | none => st
  | some activeObj =>
      if ((match st.frameImage with
            | some fi => activeObj.id != fi.id
            | none => true)
          && !activeObj.isOverlay && !activeObj.isMask) then
        { st with
            objects := st.objects.filter (fun o => o.id ≠ activeObj.id)
            activeObject := none }
      else st

/-- Whether the active object is protected from deleteSelected: it is the
frame or background image, the crop overlay, or a mask rectangle. -/
def isProtectedObject (st : EngineState) (a : SceneObject) : Bool :=
  (match st.frameImage with
    | some fi => a.id == fi.id
    | none => false)
  || a.isOverlay || a.isMask

/-! Helper lemmas about the state operations. -/

lemma constrainOverlay_width (frame : FrameDisplayInfo) (o : Rect) :
    (constrainOverlay frame o).width = o.width := rfl

lemma constrainOverlay_height (frame : FrameDisplayInfo) (o : Rect) :
    (constrainOverlay frame o).height = o.height := rfl

lemma updateDarkMaskState_selectionOverlay (st : EngineState) :
    (updateDarkMaskState st).selectionOverlay = st.selectionOverlay := by
  unfold updateDarkMaskState
  split
  · rfl
  · split <;> rfl

lemma clamp01_inUnit01 (a b : ℚ) (hb : b ≠ 0) :
    (jmax (JNum.fin 0) (jmin (JNum.fin 1) (jdiv (JNum.fin a) (JNum.fin b)))).inUnit01
      = true := by
  simp only [jdiv, if_neg hb, jmin, jmax, JNum.inUnit01, Bool.and_eq_true,
    decide_eq_true_eq]
  exact ⟨le_max_left 0 _, max_le (by norm_num) (min_le_left 1 _)⟩

/-- Claim C2 counterexample input: frame info present but with zero display
dimensions. -/
def frC2 : FrameDisplayInfo :=
  { displayWidth := 0, displayHeight := 0, displayLeft := 0, displayTop := 0,
    originalWidth := 1920, originalHeight := 800, scale := 0 }

/-- Claim C2 counterexample input: an ordinary overlay rectangle. -/
def ovC2 : Rect := { left := 50, top := 50, width := 100, height := 150 }

/-- Claim C2, as stated, is false: with the frame present but its
displayWidth and displayHeight equal to 0, _getSelectionCoords does not return
the fallback rectangle left 0, top 0, width 1, height 1 (the JavaScript
divisions produce infinities that clamp to 1). -/
theorem claim_c2_counterexample :
    getSelectionCoords (some frC2) (some ovC2) ≠
      { left := JNum.fin 0, top := JNum.fin 0, width := JNum.fin 1, height := JNum.fin 1 } := by
  norm_num [getSelectionCoords, frC2, ovC2, jdiv, jmin, jmax]

/-- Claim C2 (amended): the fallback rectangle left 0, top 0, width 1,
height 1 is returned exactly in the not-yet-loaded cases, that is whenever the
frame display info or the overlay is absent; a zero display dimension with both
present is not intercepted and yields clamped division results instead (still
without raising, the function being total). -/
theorem claim_c2_fallback (f : Option FrameDisplayInfo) (o : Option Rect)
    (h : f = none ∨ o = none) :
    getSelectionCoords f o =
      { left := JNum.fin 0, top := JNum.fin 0, width := JNum.fin 1, height := JNum.fin 1 } := by
  rcases h with rfl | rfl
  · rfl
  · cases f <;> rfl

/-- Witness for claim C2 (amended) at a concrete absent frame. -/
theorem claim_c2_fallback_witness :
    ((none : Option FrameDisplayInfo) = none ∨ (some ovC2 : Option Rect) = none) ∧
    getSelectionCoords none (some ovC2) =
      { left := JNum.fin 0, top := JNum.fin 0, width := JNum.fin 1, height := JNum.fin 1 } :=
  ⟨Or.inl rfl, claim_c2_fallback none (some ovC2) (Or.inl rfl)⟩

/-- Claim C3 counterexample input: a displayed frame 400 wide. -/
def frC3 : FrameDisplayInfo :=
  { displayWidth := 400, displayHeight := 300, displayLeft := 200, displayTop := 50,
    originalWidth := 1920, originalHeight := 1440, scale := 5 / 24 }

/-- Claim C3 counterexample input: an overlay wider (600) than the displayed
frame (400), at an out-of-bounds candidate position. -/
def ovC3 : Rect := { left := 0, top := 100, width := 600, height := 100 }

/-- Claim C3, as stated, is false: when the overlay is wider than the
displayed frame, _constrainOverlay pins the position so that the right bound
holds but the left bound is violated (left ends at 0, below displayLeft =
200). -/
theorem claim_c3_counterexample :
    ¬ (frC3.displayLeft ≤ (constrainOverlay frC3 ovC3).left ∧
       (constrainOverlay frC3 ovC3).left + (constrainOverlay frC3 ovC3).width ≤
         frC3.displayLeft + frC3.displayWidth ∧
       frC3.displayTop ≤ (constrainOverlay frC3 ovC3).top ∧
       (constrainOverlay frC3 ovC3).top + (constrainOverlay frC3 ovC3).height ≤
         frC3.displayTop + frC3.displayHeight) := by
  intro h
  have h1 := h.1
  rw [show (constrainOverlay frC3 ovC3).left = 0 from by
    norm_num [constrainOverlay, frC3, ovC3]] at h1
  norm_num [frC3] at h1

/-- Claim C3 (amended): for every candidate overlay position, provided the
overlay dimensions do not exceed the displayed frame dimensions, the overlay
returned by _constrainOverlay satisfies all four containment bounds. -/
theorem claim_c3_containment (frame : FrameDisplayInfo) (overlay : Rect)
    (hw : overlay.width ≤ frame.displayWidth)
    (hh : overlay.height ≤ frame.displayHeight) :
    frame.displayLeft ≤ (constrainOverlay frame overlay).left ∧
    (constrainOverlay frame overlay).left + (constrainOverlay frame overlay).width ≤
      frame.displayLeft + frame.displayWidth ∧
    frame.displayTop ≤ (constrainOverlay frame overlay).top ∧
    (constrainOverlay frame overlay).top + (constrainOverlay frame overlay).height ≤
      frame.displayTop + frame.displayHeight := by
  unfold constrainOverlay
  dsimp only
  split_ifs <;>
    refine ⟨by linarith, by linarith, by linarith, by linarith⟩

/-- Witness for claim C3 (amended): a fitting overlay dragged out of bounds. -/
theorem claim_c3_containment_witness :
    (Rect.mk (-50) 500 300 200).width ≤ frC3.displayWidth ∧
    (Rect.mk (-50) 500 300 200).height ≤ frC3.displayHeight ∧
    (frC3.displayLeft ≤ (constrainOverlay frC3 (Rect.mk (-50) 500 300 200)).left ∧
     (constrainOverlay frC3 (Rect.mk (-50) 500 300 200)).left +
         (constrainOverlay frC3 (Rect.mk (-50) 500 300 200)).width ≤
       frC3.displayLeft + frC3.displayWidth ∧
     frC3.displayTop ≤ (constrainOverlay frC3 (Rect.mk (-50) 500 300 200)).top ∧
     (constrainOverlay frC3 (Rect.mk (-50) 500 300 200)).top +
         (constrainOverlay frC3 (Rect.mk (-50) 500 300 200)).height ≤
       frC3.displayTop + frC3.displayHeight) :=
  ⟨by norm_num [frC3], by norm_num [frC3],
    claim_c3_containment frC3 (Rect.mk (-50) 500 300 200) (by norm_num [frC3])
      (by norm_num [frC3])⟩

/-- Claim C4: setZoom with overlay and frame info present produces an overlay
of height baseOverlayHeight times the clamped zoom, width exactly two thirds of
the height, whose rectangle is the re-centering of the new dimensions on the
previous overlay center followed by the containment constraint. -/
theorem claim_c4_setZoom (st : EngineState) (ovObj : SceneObject)
    (frame : FrameDisplayInfo) (hov : st.selectionOverlay = some ovObj)
    (hfr : st.frameDisplayInfo = some frame) (zoomLevel : ℚ) :
    ∃ ovObj1 : SceneObject,
      (setZoom st zoomLevel).selectionOverlay = some ovObj1 ∧
      ovObj1.rect.height = baseOverlayHeight * clampOverlayZoom zoomLevel ∧
      ovObj1.rect.width = ovObj1.rect.height * (2 / 3) ∧
      ovObj1.rect.width / ovObj1.rect.height = 2 / 3 ∧
      ovObj1.rect =
        constrainOverlay frame
          { left := (ovObj.rect.left + ovObj.rect.width / 2) - ovObj1.rect.width / 2
            top := (ovObj.rect.top + ovObj.rect.height / 2) - ovObj1.rect.height / 2
            width := ovObj1.rect.width
            height := ovObj1.rect.height } := by
  refine ⟨{ ovObj with rect := setZoomOverlayRect frame ovObj.rect zoomLevel },
    ?_, ?_, ?_, ?_, ?_⟩
  · show (setZoom st zoomLevel).selectionOverlay = _
    unfold setZoom
    rw [show ({ st with overlayZoom := clampOverlayZoom zoomLevel } :
        EngineState).selectionOverlay = some ovObj from hov,
      show ({ st with overlayZoom := clampOverlayZoom zoomLevel } :
        EngineState).frameDisplayInfo = some frame from hfr]
    exact updateDarkMaskState_selectionOverlay _
  · rfl
  · rfl
  · have hz : (1 : ℚ) / 2 ≤ clampOverlayZoom zoomLevel := le_max_left _ _
    have hne : baseOverlayHeight * clampOverlayZoom zoomLevel ≠ 0 := by
      unfold baseOverlayHeight
      intro hc
      nlinarith
    show baseOverlayHeight * clampOverlayZoom zoomLevel * (2 / 3) /
        (baseOverlayHeight * clampOverlayZoom zoomLevel) = 2 / 3
    rw [mul_comm, mul_div_assoc, div_self hne, mul_one]
  · rfl

/-- Witness inputs for claim C4. -/
def ovC4 : SceneObject :=
  { id := 5, type := ObjType.rect, isOverlay := true, isMask := false,
    rect := { left := 266, top := 83, width := 268, height := 400 } }

/-- Witness inputs for claim C4. -/
def frC4 : FrameDisplayInfo :=
  { displayWidth := 800, displayHeight := 1000 / 3, displayLeft := 0,
    displayTop := 250 / 3, originalWidth := 1920, originalHeight := 800,
    scale := 5 / 12 }

/-- Witness inputs for claim C4. -/
def stC4 : EngineState :=
  { initialState with
      selectionOverlay := some ovC4
      frameDisplayInfo := some frC4
      objects := [ovC4]
      nextId := 6 }

/-- Witness for claim C4 at zoom level 120. -/
theorem claim_c4_setZoom_witness :
    stC4.selectionOverlay = some ovC4 ∧ stC4.frameDisplayInfo = some frC4 ∧
    ∃ ovObj1 : SceneObject,
      (setZoom stC4 120).selectionOverlay = some ovObj1 ∧
      ovObj1.rect.height = baseOverlayHeight * clampOverlayZoom 120 ∧
      ovObj1.rect.width = ovObj1.rect.height * (2 / 3) ∧
      ovObj1.rect.width / ovObj1.rect.height = 2 / 3 ∧
      ovObj1.rect =
        constrainOverlay frC4
          { left := (ovC4.rect.left + ovC4.rect.width / 2) - ovObj1.rect.width / 2
            top := (ovC4.rect.top + ovC4.rect.height / 2) - ovObj1.rect.height / 2
            width := ovObj1.rect.width
            height := ovObj1.rect.height } :=
  ⟨rfl, rfl, claim_c4_setZoom stC4 ovC4 frC4 rfl rfl 120⟩

/-- Claim C5: for an overlay with non-negative dimensions contained in the
canvas, the mask produced by the code (creation followed by the in-place
update) equals the four rectangles of the specification formulas, and the four
mask areas plus the overlay area sum exactly to the canvas area. -/
theorem claim_c5_darkMask (canvasW canvasH : ℚ) (o : Rect)
    (h0l : 0 ≤ o.left) (h0t : 0 ≤ o.top) (_h0w : 0 ≤ o.width) (_h0h : 0 ≤ o.height)
    (hr : o.left + o.width ≤ canvasW) (hb : o.top + o.height ≤ canvasH) :
    updateDarkMask (createDarkMask canvasW canvasH o) canvasW canvasH o =
      specDimmingMask canvasW canvasH o ∧
    (specDimmingMask canvasW canvasH o).topRect.area
      + (specDimmingMask canvasW canvasH o).bottomRect.area
      + (specDimmingMask canvasW canvasH o).leftRect.area
      + (specDimmingMask canvasW canvasH o).rightRect.area
      + o.area = canvasW * canvasH := by
  constructor
  · have h1 : max 0 o.top = o.top := max_eq_right h0t
    have h2 : max 0 (canvasH - (o.top + o.height)) = canvasH - (o.top + o.height) :=
      max_eq_right (by linarith)
    have h3 : max 0 o.left = o.left := max_eq_right h0l
    have h4 : max 0 (canvasW - (o.left + o.width)) = canvasW - (o.left + o.width) :=
      max_eq_right (by linarith)
    simp [updateDarkMask, createDarkMask, specDimmingMask, h1, h2, h3, h4]
  · unfold specDimmingMask Rect.area
    dsimp only
    ring

/-- Witness for claim C5 with a concrete contained overlay. -/
theorem claim_c5_darkMask_witness :
    (0 : ℚ) ≤ (Rect.mk 100 50 200 300).left ∧
    (0 : ℚ) ≤ (Rect.mk 100 50 200 300).top ∧
    (0 : ℚ) ≤ (Rect.mk 100 50 200 300).width ∧
    (0 : ℚ) ≤ (Rect.mk 100 50 200 300).height ∧
    (Rect.mk 100 50 200 300).left + (Rect.mk 100 50 200 300).width ≤ 800 ∧
    (Rect.mk 100 50 200 300).top + (Rect.mk 100 50 200 300).height ≤ 500 ∧
    (updateDarkMask (createDarkMask 800 500 (Rect.mk 100 50 200 300)) 800 500
        (Rect.mk 100 50 200 300) =
      specDimmingMask 800 500 (Rect.mk 100 50 200 300) ∧
    (specDimmingMask 800 500 (Rect.mk 100 50 200 300)).topRect.area
      + (specDimmingMask 800 500 (Rect.mk 100 50 200 300)).bottomRect.area
      + (specDimmingMask 800 500 (Rect.mk 100 50 200 300)).leftRect.area
      + (specDimmingMask 800 500 (Rect.mk 100 50 200 300)).rightRect.area
      + (Rect.mk 100 50 200 300).area = 800 * 500) :=
  ⟨by norm_num, by norm_num, by norm_num, by norm_num, by norm_num, by norm_num,
    claim_c5_darkMask 800 500 (Rect.mk 100 50 200 300) (by norm_num) (by norm_num)
      (by norm_num) (by norm_num) (by norm_num) (by norm_num)⟩

/-- Claim C9: with frame info and overlay both present and nonzero display
dimensions, every component of the normalized crop rectangle computed by
_getSelectionCoords is a finite value clamped into the closed interval [0,1];
this is the value stored into the snapshot by confirmBackground and exported
by exportPosterData. -/
theorem claim_c9_selectionCoordsClamped (frame : FrameDisplayInfo) (overlay : Rect)
    (hW : frame.displayWidth ≠ 0) (hH : frame.displayHeight ≠ 0) :
    (getSelectionCoords (some frame) (some overlay)).left.inUnit01 = true ∧
    (getSelectionCoords (some frame) (some overlay)).top.inUnit01 = true ∧
    (getSelectionCoords (some frame) (some overlay)).width.inUnit01 = true ∧
    (getSelectionCoords (some frame) (some overlay)).height.inUnit01 = true := by
  unfold getSelectionCoords
  exact ⟨clamp01_inUnit01 _ _ hW, clamp01_inUnit01 _ _ hH,
    clamp01_inUnit01 _ _ hW, clamp01_inUnit01 _ _ hH⟩

/-- Witness for claim C9 with an overlay partly outside the displayed frame. -/
theorem claim_c9_selectionCoordsClamped_witness :
    frC4.displayWidth ≠ 0 ∧ frC4.displayHeight ≠ 0 ∧
    ((getSelectionCoords (some frC4) (some (Rect.mk (-20) 40 900 400))).left.inUnit01
        = true ∧
     (getSelectionCoords (some frC4) (some (Rect.mk (-20) 40 900 400))).top.inUnit01
        = true ∧
     (getSelectionCoords (some frC4) (some (Rect.mk (-20) 40 900 400))).width.inUnit01
        = true ∧
     (getSelectionCoords (some frC4) (some (Rect.mk (-20) 40 900 400))).height.inUnit01
        = true) :=
  ⟨by norm_num [frC4], by norm_num [frC4],
    claim_c9_selectionCoordsClamped frC4 (Rect.mk (-20) 40 900 400)
      (by norm_num [frC4]) (by norm_num [frC4])⟩

/-- Claim C1 counterexample input: a vertical line with stroke width 2 and
scale 1, as created by addLine. -/
def lineC1 : LineObj :=
  { x1 := 0, y1 := 0, x2 := 0, y2 := 200, left := 50, top := 50,
    cosAngle := 1, sinAngle := 0, scaleX := 1, scaleY := 1,
    stroke := "#ffffff", strokeWidth := 2 }

/-- Claim C1, as stated, is false on the stroke width: against a 400 by 600
reference rectangle the code exports strokeWidth times scaleX unchanged (2),
not that value normalized by either reference dimension. -/
theorem claim_c1_counterexample :
    (exportLine lineC1 0 0 400 600).strokeWidth ≠
        lineC1.strokeWidth * lineC1.scaleX / 400 ∧
    (exportLine lineC1 0 0 400 600).strokeWidth ≠
        lineC1.strokeWidth * lineC1.scaleX / 600 := by
  constructor <;>
    norm_num [exportLine, lineC1, jsOrOne]

/-- The concrete scenario line of claim C1: local segment (0,0)-(0,200),
rotation 0, scale (1,1), translated so the segment starts at (50,50) (stroke
width 0 so that the bounding-box position coincides with the segment). -/
def lineScenarioC1 (stroke : String) : LineObj :=
  { x1 := 0, y1 := 0, x2 := 0, y2 := 200, left := 50, top := 50,
    cosAngle := 1, sinAngle := 0, scaleX := 1, scaleY := 1,
    stroke := stroke, strokeWidth := 0 }

/-- Claim C1 (amended): the endpoints are resolved through the full transform
(calcLinePoints composed with calcTransformMatrix) and normalized by the
reference rectangle — in particular the scenario line exports endpoints
(50/refW, 50/refH)-(50/refW, 250/refH) — but the exported stroke width is
strokeWidth times scaleX (scaleX of 0 treated as 1), not normalized by the
reference rectangle. -/
theorem claim_c1_lineExport :
    (∀ (stroke : String) (refW refH : ℚ),
        exportLine (lineScenarioC1 stroke) 0 0 refW refH =
          { x1 := 50 / refW, y1 := 50 / refH, x2 := 50 / refW, y2 := 250 / refH,
            stroke := stroke, strokeWidth := 0 }) ∧
    (∀ (l : LineObj) (rL rT rW rH : ℚ),
        (exportLine l rL rT rW rH).strokeWidth = l.strokeWidth * jsOrOne l.scaleX) := by
  constructor
  · intro stroke refW refH
    unfold exportLine lineScenarioC1 calcLinePoints LineObj.calcTransformMatrix
      LineObj.centerPoint LineObj.transformedDims LineObj.width LineObj.height
      rotatePointAround transformPoint jsOrOne
    norm_num
  · intro l rL rT rW rH
    rfl

/-- Claim C8 scenario input: a right-aligned text element with container width
300, measured text width 180, container left 60. -/
def textC8 : TextObj :=
  { text := "Sample", bboxLeft := 60, bboxTop := 20, bboxHeight := 40, width := 300,
    fontFamily := "Arial", fontSize := 32, fill := "#ffffff", fontWeight := none,
    fontStyle := none, underline := false, textAlign := some TextAlign.right,
    angle := 0, scaleX := 1, scaleY := 1, maxLineWidth := 180 }

/-- Claim C8: the exported left coordinate is the container (bounding box)
left, unchanged for left alignment, offset by half the delta between the
scaled container width and the measured widest-line width for center
alignment, and by the full delta for right alignment, then normalized by the
reference rectangle; in particular the scenario element exports
left = (60 + 300 - 180) / referenceWidth. -/
theorem claim_c8_textExportLeft :
    (∀ (o : TextObj) (rL rT rW rH : ℚ),
        (o.textAlign = some TextAlign.left →
          (exportTextLayer o rL rT rW rH).left = (o.bboxLeft - rL) / rW) ∧
        (o.textAlign = some TextAlign.center →
          (exportTextLayer o rL rT rW rH).left =
            (o.bboxLeft + (o.width * jsOrOne o.scaleX - o.maxLineWidth) / 2 - rL) / rW) ∧
        (o.textAlign = some TextAlign.right →
          (exportTextLayer o rL rT rW rH).left =
            (o.bboxLeft + o.width * jsOrOne o.scaleX - o.maxLineWidth - rL) / rW)) ∧
    (∀ refW refH : ℚ,
        (exportTextLayer textC8 0 0 refW refH).left = (60 + 300 - 180) / refW) := by
  constructor
  · intro o rL rT rW rH
    refine ⟨fun h => ?_, fun h => ?_, fun h => ?_⟩ <;>
      simp [exportTextLayer, h]
  · intro refW refH
    norm_num [exportTextLayer, textC8, jsOrOne,
      if_neg (show TextAlign.right ≠ TextAlign.center from by decide)]

/-- Witness for claim C8 at the scenario element against a 400-wide
reference. -/
theorem claim_c8_textExportLeft_witness :
    textC8.textAlign = some TextAlign.right ∧
    (exportTextLayer textC8 0 0 400 600).left =
      (textC8.bboxLeft + textC8.width * jsOrOne textC8.scaleX - textC8.maxLineWidth - 0)
        / 400 :=
  ⟨rfl, (claim_c8_textExportLeft.1 textC8 0 0 400 600).2.2 rfl⟩

/-- Claim C7: confirm in the elements phase and revert in the background phase
are exact no-ops on the whole engine state. -/
theorem claim_c7_wrongPhaseNoop (stA stB : EngineState)
    (hA : stA.workflowPhase = WorkflowPhase.elements)
    (hB : stB.workflowPhase = WorkflowPhase.background) :
    confirmBackground stA = stA ∧ resetToBackgroundPhase stB = stB := by
  constructor
  · unfold confirmBackground
    rw [if_pos hA]
  · unfold resetToBackgroundPhase
    rw [if_pos hB]

/-- Witness input for claim C7: a state already in the elements phase. -/
def stC7 : EngineState := { initialState with workflowPhase := WorkflowPhase.elements }

/-- Witness for claim C7 at concrete states in each phase. -/
theorem claim_c7_wrongPhaseNoop_witness :
    stC7.workflowPhase = WorkflowPhase.elements ∧
    initialState.workflowPhase = WorkflowPhase.background ∧
    (confirmBackground stC7 = stC7 ∧ resetToBackgroundPhase initialState = initialState) :=
  ⟨rfl, rfl, claim_c7_wrongPhaseNoop stC7 initialState rfl rfl⟩

/-- Claim C10: deleteSelected removes the active object exactly when it is not
the frame or background image, not the overlay, and not a mask rectangle; for
a protected active object the state is left entirely unchanged. -/
theorem claim_c10_deleteSelected (st : EngineState) (a : SceneObject)
    (ha : st.activeObject = some a) :
    (isProtectedObject st a = true → deleteSelected st = st) ∧
    (isProtectedObject st a = false →
      (deleteSelected st).objects = st.objects.filter (fun o => o.id ≠ a.id) ∧
      ∀ o ∈ (deleteSelected st).objects, o.id ≠ a.id) := by
  have hcond : ((match st.frameImage with
      | some fi => a.id != fi.id
      | none => true) && !a.isOverlay && !a.isMask) = !(isProtectedObject st a) := by
    cases hf : st.frameImage <;>
      simp [isProtectedObject, Bool.not_or, bne, hf]
  constructor
  · intro hp
    unfold deleteSelected
    rw [ha]
    dsimp only
    rw [hcond, hp]
    simp
  · intro hp
    unfold deleteSelected
    rw [ha]
    dsimp only
    rw [hcond, hp]
    simp only [Bool.not_false, if_true]
    refine ⟨by simp, ?_⟩
    intro o ho
    simp only [List.mem_filter, decide_eq_true_eq] at ho
    exact ho.2

/-- Witness input for claim C10: a text object to delete. -/
def objC10 : SceneObject :=
  { id := 2, type := ObjType.textbox, isOverlay := false, isMask := false,
    rect := { left := 100, top := 200, width := 320, height := 40 } }

/-- Witness input for claim C10: a state whose active object is a text
object. -/
def stC10 : EngineState :=
  { initialState with
      workflowPhase := WorkflowPhase.elements
      objects := [objC10]
      activeObject := some objC10
      nextId := 3 }

/-- Witness for claim C10 at a concrete unprotected active object. -/
theorem claim_c10_deleteSelected_witness :
    stC10.activeObject = some objC10 ∧ isProtectedObject stC10 objC10 = false ∧
    ((deleteSelected stC10).objects = stC10.objects.filter (fun o => o.id ≠ objC10.id) ∧
      ∀ o ∈ (deleteSelected stC10).objects, o.id ≠ objC10.id) :=
  ⟨rfl, rfl, (claim_c10_deleteSelected stC10 objC10 rfl).2 rfl⟩

/-! Projection and membership lemmas used to reason about the revert
transition. -/

lemma resizeCanvas_objects (st : EngineState) (w h : ℚ) :
    (resizeCanvas st w h).objects = st.objects := by
  unfold resizeCanvas; split <;> rfl

lemma resizeCanvas_nextId (st : EngineState) (w h : ℚ) :
    (resizeCanvas st w h).nextId = st.nextId := by
  unfold resizeCanvas; split <;> rfl

lemma resizeCanvas_frameImage (st : EngineState) (w h : ℚ) :
    (resizeCanvas st w h).frameImage = st.frameImage := by
  unfold resizeCanvas; split <;> rfl

lemma resizeCanvas_selectionOverlay (st : EngineState) (w h : ℚ) :
    (resizeCanvas st w h).selectionOverlay = st.selectionOverlay := by
  unfold resizeCanvas; split <;> rfl

lemma resizeCanvas_darkMaskRects (st : EngineState) (w h : ℚ) :
    (resizeCanvas st w h).darkMaskRects = st.darkMaskRects := by
  unfold resizeCanvas; split <;> rfl

lemma resizeCanvas_videoBase (st : EngineState) (w h : ℚ) :
    (resizeCanvas st w h).videoBase = st.videoBase := by
  unfold resizeCanvas; split <;> rfl

lemma resizeCanvas_videoPath (st : EngineState) (w h : ℚ) :
    (resizeCanvas st w h).videoPath = st.videoPath := by
  unfold resizeCanvas; split <;> rfl

lemma resizeCanvas_backgroundMode (st : EngineState) (w h : ℚ) :
    (resizeCanvas st w h).backgroundMode = st.backgroundMode := by
  unfold resizeCanvas; split <;> rfl

lemma resizeCanvas_sourceFrame (st : EngineState) (w h : ℚ) :
    (resizeCanvas st w h).sourceFrame = st.sourceFrame := by
  unfold resizeCanvas; split <;> rfl

lemma mem_of_removeObjOpt {o : SceneObject} {objs : List SceneObject}
    {x : Option SceneObject} (h : o ∈ removeObjOpt objs x) : o ∈ objs := by
  cases x with
  | none => exact h
  | some a => exact List.mem_of_mem_filter h

lemma id_ne_of_removeObjOpt_some {o a : SceneObject} {objs : List SceneObject}
    (h : o ∈ removeObjOpt objs (some a)) : o.id ≠ a.id := by
  have hp := List.of_mem_filter h
  simpa using hp

lemma mem_of_removeAllByIds {o : SceneObject} {objs rem : List SceneObject}
    (h : o ∈ removeAllByIds objs rem) : o ∈ objs :=
  List.mem_of_mem_filter h

lemma mem_maskObjectsFor {m : SceneObject} {s : EngineState} {ov : SceneObject}
    (h : m ∈ maskObjectsFor s ov) :
    m.isMask = true ∧ m.type = ObjType.rect ∧
      (m.id = s.nextId ∨ m.id = s.nextId + 1 ∨ m.id = s.nextId + 2 ∨
        m.id = s.nextId + 3) := by
  simp only [maskObjectsFor, List.mem_cons, List.not_mem_nil, or_false] at h
  rcases h with rfl | rfl | rfl | rfl <;> simp

lemma createDarkMaskObjects_of_overlay (s : EngineState) (ov : SceneObject)
    (h : s.selectionOverlay = some ov) :
    createDarkMaskObjects s =
      { s with
          objects := removeAllByIds s.objects s.darkMaskRects ++ maskObjectsFor s ov
          darkMaskRects := maskObjectsFor s ov
          nextId := s.nextId + 4 } := by
  unfold createDarkMaskObjects
  dsimp only
  rw [h]
  rfl

/-- Reduction of setFrame in the successful image path: with a video selected,
image mode, a frame raster available and no previous frame image, setFrame
installs the fitted frame and rebuilds overlay and mask. -/
lemma setFrame_loaded (s : EngineState) (t : ℚ) (d : ℚ × ℚ) (vb vp : String)
    (hvB : s.videoBase = some vb) (hvP : s.videoPath = some vp)
    (hbm : s.backgroundMode = BackgroundMode.image)
    (hsf : s.sourceFrame = some d) (hfi : s.frameImage = none) :
    setFrame s t =
      createDarkMaskObjects (createSelectionOverlay
        { s with
            currentTimestamp := t
            frameDisplayInfo :=
              some (computeFrameDisplayInfo s.canvasWidth s.canvasHeight d.1 d.2)
            frameImage := some (frameImageObjectFor s d)
            objects := s.objects ++ [frameImageObjectFor s d]
            nextId := s.nextId + 1 }) := by
  unfold setFrame
  rw [hvB, hvP]
  rw [if_neg (by simp)]
  dsimp only
  rw [hbm]
  rw [if_neg (by simp)]
  rw [hsf]
  dsimp only
  rw [hfi]
  rfl

lemma createDarkMask_createSelection (s : EngineState) :
    createDarkMaskObjects (createSelectionOverlay s) =
      { createSelectionOverlay s with
          objects := removeAllByIds (createSelectionOverlay s).objects
              (createSelectionOverlay s).darkMaskRects
            ++ maskObjectsFor (createSelectionOverlay s) (overlayObjectFor s)
          darkMaskRects :=
            maskObjectsFor (createSelectionOverlay s) (overlayObjectFor s)
          nextId := (createSelectionOverlay s).nextId + 4 } :=
  createDarkMaskObjects_of_overlay _ _ rfl

/-- Claim C6: calling revert from the elements phase (image mode, with a video
selected and its frame available) returns to the background phase with no text
or line element left in the scene, discards the locked snapshot, removes the
previous background object, and installs a freshly constructed overlay and
mask whose ids are distinct from every object that existed before the call. -/
theorem claim_c6_revert (st : EngineState) (vb vp : String) (d : ℚ × ℚ)
    (hphase : st.workflowPhase = WorkflowPhase.elements)
    (hmode : st.backgroundMode = BackgroundMode.image)
    (hvb : st.videoBase = some vb) (hvp : st.videoPath = some vp)
    (hsf : st.sourceFrame = some d)
    (hids : ∀ o ∈ st.objects, o.id < st.nextId)
    (hfib : ∀ fi, st.frameImage = some fi → fi.id < st.nextId) :
    (resetToBackgroundPhase st).workflowPhase = WorkflowPhase.background ∧
    (∀ o ∈ (resetToBackgroundPhase st).objects,
        o.type ≠ ObjType.itext ∧ o.type ≠ ObjType.textbox ∧ o.type ≠ ObjType.line) ∧
    (resetToBackgroundPhase st).lockedBackgroundData = none ∧
    (∀ fi, st.frameImage = some fi →
        ∀ o ∈ (resetToBackgroundPhase st).objects, o.id ≠ fi.id) ∧
    (∃ ov, (resetToBackgroundPhase st).selectionOverlay = some ov ∧
        ov.isOverlay = true ∧ ∀ o ∈ st.objects, ov.id ≠ o.id) ∧
    (resetToBackgroundPhase st).darkMaskRects.length = 4 ∧
    (∀ m ∈ (resetToBackgroundPhase st).darkMaskRects,
        m.isMask = true ∧ ∀ o ∈ st.objects, m.id ≠ o.id) := by
  have hguard : ¬ st.workflowPhase = WorkflowPhase.background := by simp [hphase]
  set W : EngineState :=
    { st with
        objects := removeObjOpt (st.objects.filter (fun o =>
            ¬ (o.type = ObjType.itext ∨ o.type = ObjType.textbox ∨
              o.type = ObjType.line))) st.frameImage
        frameImage := none
        canvasBackground := CanvasBackground.solid "#1a1a2e" } with hWdef
  have hred1 : resetToBackgroundPhase st =
      { setFrame (resizeCanvas W imageModeWidth imageModeHeight)
          ((resizeCanvas W imageModeWidth imageModeHeight).currentTimestamp) with
          workflowPhase := WorkflowPhase.background
          lockedBackgroundData := none } := by
    unfold resetToBackgroundPhase
    rw [if_neg hguard]
    dsimp only
    rw [if_pos hmode]
    rw [resizeCanvas_videoBase, resizeCanvas_videoPath]
    dsimp only
    rw [if_pos (show st.videoBase.isSome = true ∧ st.videoPath.isSome = true from
      ⟨by rw [hvb]; rfl, by rw [hvp]; rfl⟩)]
  have hred2 := setFrame_loaded (resizeCanvas W imageModeWidth imageModeHeight)
    ((resizeCanvas W imageModeWidth imageModeHeight).currentTimestamp) d vb vp
    (by rw [resizeCanvas_videoBase, hWdef]; exact hvb)
    (by rw [resizeCanvas_videoPath, hWdef]; exact hvp)
    (by rw [resizeCanvas_backgroundMode, hWdef]; exact hmode)
    (by rw [resizeCanvas_sourceFrame, hWdef]; exact hsf)
    (by rw [resizeCanvas_frameImage, hWdef])
  rw [hred1, hred2, createDarkMask_createSelection]
  refine ⟨rfl, ?_, rfl, ?_, ?_, rfl, ?_⟩
  · intro o ho
    simp only [createSelectionOverlay] at ho
    try dsimp only at ho
    rw [resizeCanvas_objects, resizeCanvas_selectionOverlay] at ho
    rw [hWdef] at ho
    try dsimp only at ho
    rcases List.mem_append.mp ho with h1 | h2
    · have h1' := mem_of_removeAllByIds h1
      rcases List.mem_append.mp h1' with h3 | h4
      · have h3' := mem_of_removeObjOpt h3
        rcases List.mem_append.mp h3' with h5 | h6
        · have h5' := mem_of_removeObjOpt h5
          have hp := List.of_mem_filter h5'
          simp only [decide_eq_true_eq] at hp
          push_neg at hp
          exact hp
        · rw [List.mem_singleton] at h6
          subst h6
          exact ⟨by simp [frameImageObjectFor], by simp [frameImageObjectFor],
            by simp [frameImageObjectFor]⟩
      · rw [List.mem_singleton] at h4
        subst h4
        exact ⟨by simp [overlayObjectFor], by simp [overlayObjectFor],
          by simp [overlayObjectFor]⟩
    · rcases mem_maskObjectsFor h2 with ⟨_, ht, _⟩
      exact ⟨by simp [ht], by simp [ht], by simp [ht]⟩
  · intro fi hfi o ho
    have hfiId : fi.id < st.nextId := hfib fi hfi
    simp only [createSelectionOverlay] at ho
    try dsimp only at ho
    rw [resizeCanvas_objects, resizeCanvas_selectionOverlay] at ho
    rw [hWdef] at ho
    try dsimp only at ho
    rcases List.mem_append.mp ho with h1 | h2
    · have h1' := mem_of_removeAllByIds h1
      rcases List.mem_append.mp h1' with h3 | h4
      · have h3' := mem_of_removeObjOpt h3
        rcases List.mem_append.mp h3' with h5 | h6
        · rw [hfi] at h5
          exact id_ne_of_removeObjOpt_some h5
        · rw [List.mem_singleton] at h6
          subst h6
          simp only [frameImageObjectFor]
          rw [resizeCanvas_nextId]
          try dsimp only
          omega
      · rw [List.mem_singleton] at h4
        subst h4
        simp only [overlayObjectFor]
        try dsimp only
        rw [resizeCanvas_nextId]
        try dsimp only
        omega
    · rcases mem_maskObjectsFor h2 with ⟨_, _, hid⟩
      simp only [createSelectionOverlay] at hid
      try dsimp only at hid
      rw [resizeCanvas_nextId] at hid
      try dsimp only at hid
      omega
  · refine ⟨_, rfl, rfl, ?_⟩
    intro o ho
    have hbound := hids o ho
    simp only [overlayObjectFor]
    try dsimp only
    rw [resizeCanvas_nextId, hWdef]
    try dsimp only
    omega
  · intro m hm
    try dsimp only at hm
    rcases mem_maskObjectsFor hm with ⟨hmask, _, hid⟩
    refine ⟨hmask, ?_⟩
    intro o ho
    have hbound := hids o ho
    simp only [createSelectionOverlay] at hid
    try dsimp only at hid
    rw [resizeCanvas_nextId, hWdef] at hid
    try dsimp only at hid
    omega

/-- Witness input for claim C6: the installed poster background object. -/
def bgC6 : SceneObject :=
  { id := 0, type := ObjType.image, isOverlay := false, isMask := false,
    rect := { left := 0, top := 0, width := 400, height := 600 } }

/-- Witness input for claim C6: a leftover text element. -/
def textC6 : SceneObject :=
  { id := 1, type := ObjType.textbox, isOverlay := false, isMask := false,
    rect := { left := 100, top := 200, width := 320, height := 40 } }

/-- Witness input for claim C6: an elements-phase state in image mode with a
video selected and its frame available. -/
def stC6 : EngineState :=
  { initialState with
      workflowPhase := WorkflowPhase.elements
      backgroundMode := BackgroundMode.image
      canvasWidth := posterModeWidth
      canvasHeight := posterModeHeight
      videoBase := some "media"
      videoPath := some "movie.mkv"
      sourceFrame := some (1920, 800)
      objects := [bgC6, textC6]
      frameImage := some bgC6
      lockedBackgroundData :=
        some
          { mode := BackgroundMode.image
            selectionCoords :=
              { left := JNum.fin 0, top := JNum.fin 0, width := JNum.fin (1 / 2),
                height := JNum.fin 1 }
            blur := 0
            backgroundColor := "#000000"
            gradientColors := ("#000000", "#333333")
            gradientDirection := "vertical"
            videoBase := some "media"
            videoPath := some "movie.mkv"
            timestamp := 30
            capturedImageUrl := none }
      nextId := 2 }

/-- Witness for claim C6 at the concrete elements-phase state. -/
theorem claim_c6_revert_witness :
    stC6.workflowPhase = WorkflowPhase.elements ∧
    stC6.backgroundMode = BackgroundMode.image ∧
    stC6.videoBase = some "media" ∧ stC6.videoPath = some "movie.mkv" ∧
    stC6.sourceFrame = some (1920, 800) ∧
    (∀ o ∈ stC6.objects, o.id < stC6.nextId) ∧
    (∀ fi, stC6.frameImage = some fi → fi.id < stC6.nextId) ∧
    ((resetToBackgroundPhase stC6).workflowPhase = WorkflowPhase.background ∧
     (∀ o ∈ (resetToBackgroundPhase stC6).objects,
         o.type ≠ ObjType.itext ∧ o.type ≠ ObjType.textbox ∧ o.type ≠ ObjType.line) ∧
     (resetToBackgroundPhase stC6).lockedBackgroundData = none ∧
     (∀ fi, stC6.frameImage = some fi →
         ∀ o ∈ (resetToBackgroundPhase stC6).objects, o.id ≠ fi.id) ∧
     (∃ ov, (resetToBackgroundPhase stC6).selectionOverlay = some ov ∧
         ov.isOverlay = true ∧ ∀ o ∈ stC6.objects, ov.id ≠ o.id) ∧
     (resetToBackgroundPhase stC6).darkMaskRects.length = 4 ∧
     (∀ m ∈ (resetToBackgroundPhase stC6).darkMaskRects,
         m.isMask = true ∧ ∀ o ∈ stC6.objects, m.id ≠ o.id)) :=
  ⟨rfl, rfl, rfl, rfl, rfl,
    by intro o ho; simp only [stC6, List.mem_cons, List.not_mem_nil, or_false] at ho
       rcases ho with rfl | rfl <;> simp [bgC6, textC6, stC6],
    by intro fi hfi
       simp only [stC6, Option.some.injEq] at hfi
       subst hfi
       simp [bgC6, stC6],
    claim_c6_revert stC6 "media" "movie.mkv" (1920, 800) rfl rfl rfl rfl rfl
      (by intro o ho; simp only [stC6, List.mem_cons, List.not_mem_nil, or_false] at ho
          rcases ho with rfl | rfl <;> simp [bgC6, textC6, stC6])
      (by intro fi hfi
          simp only [stC6, Option.some.injEq] at hfi
          subst hfi
          simp [bgC6, stC6])⟩

end PosterGen
